import Mathlib

set_option maxHeartbeats 1000000
set_option maxRecDepth 8192

/-!
Verification of the conversational control loops of this repository:
the tool-call-driven Conversation Driver of `connections-chat/app.py`
and the evaluate-and-retry Response Gate of `profile-chatbot.py`.
Each Python function is embedded as a Lean definition; the hosted model
endpoints and the notification network are passed in as oracles, so that
one run of a driver turn is a pure value that records the trace of calls.
-/

namespace ConnectionsChat

/-- JSON values as they flow through `app.py`: the outcome of `json.loads`
on the model-supplied argument string, the Python return values of the tool
functions, and the input of `json.dumps`. -/
inductive Json where
  | null : Json
  | num : Int → Json
  | str : String → Json
  | obj : List (String × Json) → Json

mutual

/-- Decidable equality of JSON values (the nested inductive blocks the
automatic derivation). -/
def Json.decEq : (a b : Json) → Decidable (a = b)
  | .null, .null => isTrue rfl
  | .null, .num _ => isFalse (by intro hc; cases hc)
  | .null, .str _ => isFalse (by intro hc; cases hc)
  | .null, .obj _ => isFalse (by intro hc; cases hc)
  | .num _, .null => isFalse (by intro hc; cases hc)
  | .num a, .num b =>
    if h : a = b then isTrue (by rw [h]) else isFalse (by intro hc; cases hc; exact h rfl)
  | .num _, .str _ => isFalse (by intro hc; cases hc)
  | .num _, .obj _ => isFalse (by intro hc; cases hc)
  | .str _, .null => isFalse (by intro hc; cases hc)
  | .str _, .num _ => isFalse (by intro hc; cases hc)
  | .str a, .str b =>
    if h : a = b then isTrue (by rw [h]) else isFalse (by intro hc; cases hc; exact h rfl)
  | .str _, .obj _ => isFalse (by intro hc; cases hc)
  | .obj _, .null => isFalse (by intro hc; cases hc)
  | .obj _, .num _ => isFalse (by intro hc; cases hc)
  | .obj _, .str _ => isFalse (by intro hc; cases hc)
  | .obj a, .obj b =>
    match Json.decEqFields a b with
    | isTrue h => isTrue (by rw [h])
    | isFalse h => isFalse (by intro hc; cases hc; exact h rfl)

/-- Decidable equality of JSON object field lists. -/
def Json.decEqFields : (a b : List (String × Json)) → Decidable (a = b)
  | [], [] => isTrue rfl
  | [], _ :: _ => isFalse (by intro hc; cases hc)
  | _ :: _, [] => isFalse (by intro hc; cases hc)
  | (k, v) :: r, (k2, v2) :: r2 =>
    if hk : k = k2 then
      match Json.decEq v v2 with
      | isTrue hv =>
        match Json.decEqFields r r2 with
        | isTrue hr => isTrue (by rw [hk, hv, hr])
        | isFalse hr => isFalse (by intro hc; cases hc; exact hr rfl)
      | isFalse hv => isFalse (by intro hc; cases hc; exact hv rfl)
    else isFalse (by intro hc; cases hc; exact hk rfl)

end

instance : DecidableEq Json := Json.decEq

/-- One character of `json.dumps` output for a string: quote and backslash
are escaped as in Python, other characters pass through (the claims only
ever serialize plain ASCII text). -/
def jsonEscapeChar (c : Char) : String :=
  if c = '"' then "\\\"" else if c = '\\' then "\\\\" else String.singleton c

/-- The `json.dumps` rendering of a string, double-quoted and escaped. -/
def jsonQuote (s : String) : String :=
  "\"" ++ String.join (s.toList.map jsonEscapeChar) ++ "\""

mutual

/-- Embedding of Python `json.dumps` with its default separators, as used at
`app.py` line 264 to serialize a tool result for the model. -/
def jsonDumps : Json → String
  | .null => "null"
  | .num n => toString n
  | .str s => jsonQuote s
  | .obj fields => "\x7b" ++ jsonDumpsFields fields ++ "\x7d"

/-- The comma-separated field list of a serialized JSON object. -/
def jsonDumpsFields : List (String × Json) → String
  | [] => ""
  | [(k, v)] => jsonQuote k ++ ": " ++ jsonDumps v
  | (k, v) :: rest => jsonQuote k ++ ": " ++ jsonDumps v ++ ", " ++ jsonDumpsFields rest

end

/-- The Pushover credentials read from the environment at module load
(`app.py` lines 53-54): `os.getenv` yields a string or None. -/
structure PushoverConfig where
  pushover_user : Option String
  pushover_token : Option String
deriving DecidableEq

/-- Python truthiness of an optional environment string: None and the empty
string are falsy. -/
def truthyStr : Option String → Bool
  | none => false
  | some s => !(s == "")

/-- The outcome of the one HTTP round trip `requests.post` makes inside
`push` (`app.py` line 97): a parsed JSON body on success, or the exception
that `requests.post`, `raise_for_status` or `.json()` raised. -/
inductive NetOutcome where
  | reply : List (String × Json) → NetOutcome
  | requestException : String → NetOutcome
  | otherException : String → NetOutcome
deriving DecidableEq

/-- Which branch of `push` ran, as witnessed by its prints: credentials
missing, delivery confirmed (body status 1), delivery rejected, a caught
RequestException, or a caught unexpected exception. -/
inductive Delivery where
  | credsMissing : Delivery
  | sentOk : Delivery
  | sentFailed : Delivery
  | requestError : String → Delivery
  | unexpectedError : String → Delivery
deriving DecidableEq

/-- The observable effect of one `push` invocation: the message it was
asked to deliver (printed unconditionally at `app.py` line 78) and the
branch taken. -/
structure PushRec where
  message : Json
  delivery : Delivery
deriving DecidableEq

/-- `dict.get` on a parsed JSON body. -/
def jsonGet (fields : List (String × Json)) (key : String) : Option Json :=
  (fields.find? (fun p => p.1 == key)).map (fun p => p.2)

/-- Embedding of `push` (`app.py` lines 71-109). Every branch returns
Python None; the try/except swallows every network failure, so `push`
never raises. The PushRec component records the effect. -/
def push (cfg : PushoverConfig) (net : NetOutcome) (message : Json) : PushRec × Json :=
  if !truthyStr cfg.pushover_user || !truthyStr cfg.pushover_token then
    (⟨message, .credsMissing⟩, .null)
  else
    match net with
    | .reply body =>
      if jsonGet body "status" = some (.num 1) then (⟨message, .sentOk⟩, .null)
      else (⟨message, .sentFailed⟩, .null)
    | .requestException e => (⟨message, .requestError e⟩, .null)
    | .otherException e => (⟨message, .unexpectedError e⟩, .null)

/-- Python str() of an argument value interpolated into the notification
f-strings of the tool functions. Strings render as themselves; the
rendering of non-string values abbreviates Python repr, whose exact text no
claim inspects. -/
def pyStr : Json → String
  | .null => "None"
  | .num n => toString n
  | .str s => s
  | .obj _ => "<dict>"

/-- Embedding of `record_user_details` (`app.py` lines 120-137): push a
notification about the interested user, then return the fixed confirmation
payload. The Python defaults for name and notes are applied at the keyword
binding in the dispatcher. -/
def record_user_details (cfg : PushoverConfig) (net : NetOutcome)
    (email name notes : Json) : PushRec × Json :=
  let p := push cfg net (.str ("Recording interest from " ++ pyStr name ++ " with email "
    ++ pyStr email ++ " and notes " ++ pyStr notes))
  (p.1, Json.obj [("recorded", Json.str "ok")])

/-- Embedding of `record_unknown_question` (`app.py` lines 139-153). -/
def record_unknown_question (cfg : PushoverConfig) (net : NetOutcome)
    (question : Json) : PushRec × Json :=
  let p := push cfg net (.str ("Recording " ++ pyStr question ++ " asked that I couldn't answer"))
  (p.1, Json.obj [("recorded", Json.str "ok")])

/-- A tool schema as advertised to the model (`app.py` lines 162-201):
name, description, and the required parameter names. -/
structure ToolSchema where
  name : String
  description : String
  required : List String
deriving DecidableEq

/-- Schema for the record_user_details tool (`app.py` lines 162-184). -/
def record_user_details_json : ToolSchema :=
  ⟨"record_user_details",
   "Use this tool to record that a user is interested in being in touch and provided an email address",
   ["email"]⟩

/-- Schema for the record_unknown_question tool (`app.py` lines 187-201). -/
def record_unknown_question_json : ToolSchema :=
  ⟨"record_unknown_question",
   "Always use this tool to record any question that couldn't be answered as you didn't know the answer",
   ["question"]⟩

/-- The advertised tools list (`app.py` lines 208-211). -/
def tools : List ToolSchema := [record_user_details_json, record_unknown_question_json]

/-- The three module-level functions the dispatcher can reach whose
behavior is part of the tool contract. -/
inductive ToolFn where
  | pushFn : ToolFn
  | recordUserDetailsFn : ToolFn
  | recordUnknownQuestionFn : ToolFn
deriving DecidableEq

/-- The classification of a module global binding as the dispatcher sees
it: one of the three modelled tool functions, some other callable (whose
invocation is outside the modelled tool contract), a truthy non-callable
value, or a falsy value. -/
inductive PyGlobal where
  | toolFn : ToolFn → PyGlobal
  | callableOther : PyGlobal
  | truthyValue : PyGlobal
  | falsyValue : PyGlobal
deriving DecidableEq

/-- The module global namespace of `app.py` as `globals().get` sees it at
chat time, after the module body has run. Interpreter double-underscore
names are left out; the bindings created by the profile-loading loop
(reader, page, text, f, linkedin, summary) are modelled for a run whose
profile PDF has at least one page of nonempty text and whose summary file
is nonempty, so they are truthy non-callables; pushover_user and
pushover_token take their truthiness from the environment configuration. -/
def moduleGlobals (cfg : PushoverConfig) (n : String) : Option PyGlobal :=
  if n = "push" then some (.toolFn .pushFn)
  else if n = "record_user_details" then some (.toolFn .recordUserDetailsFn)
  else if n = "record_unknown_question" then some (.toolFn .recordUnknownQuestionFn)
  else if n = "load_dotenv" ∨ n = "OpenAI" ∨ n = "PdfReader" ∨ n = "handle_tool_calls" ∨ n = "chat" then
    some .callableOther
  else if n = "json" ∨ n = "os" ∨ n = "requests" ∨ n = "gr" ∨ n = "openai"
      ∨ n = "pushover_url" ∨ n = "record_user_details_json" ∨ n = "record_unknown_question_json"
      ∨ n = "tools" ∨ n = "reader" ∨ n = "page" ∨ n = "text" ∨ n = "f"
      ∨ n = "linkedin" ∨ n = "summary" ∨ n = "name" ∨ n = "system_prompt" then
    some .truthyValue
  else if n = "pushover_user" then
    some (if truthyStr cfg.pushover_user then .truthyValue else .falsyValue)
  else if n = "pushover_token" then
    some (if truthyStr cfg.pushover_token then .truthyValue else .falsyValue)
  else none

/-- Python truthiness of the result of `globals().get(tool_name)`
(`app.py` line 255, `if tool:`): absent names give None, which is falsy;
falsy bindings are falsy; everything else is truthy. -/
def pyTruthy : Option PyGlobal → Bool
  | none => false
  | some .falsyValue => false
  | some _ => true

/-- The outcome of `json.loads` on the argument string of one tool call
(`app.py` line 243): either the exception it raised on malformed input, or
the parsed value. -/
inductive ArgsOutcome where
  | decodeError : ArgsOutcome
  | value : Json → ArgsOutcome
deriving DecidableEq

/-- The function part of a tool call request: the name the model asked for
and the (already scanned) outcome of decoding its argument string. -/
structure ToolFunctionCall where
  name : String
  arguments : ArgsOutcome
deriving DecidableEq

/-- A tool call request from the model: correlation id plus function. -/
structure ToolCall where
  id : String
  function : ToolFunctionCall
deriving DecidableEq

/-- A Python exception escaping the dispatch code of `handle_tool_calls`:
a json.loads decode failure, a TypeError (bad keyword binding or calling a
non-callable), or a call of a module callable outside the modelled tool
set. -/
inductive PyError where
  | jsonDecodeError : PyError
  | typeError : String → PyError
  | unmodelledCall : String → PyError
deriving DecidableEq

/-- Keyword lookup in a decoded argument object. -/
def kwLookup (kwargs : List (String × Json)) (key : String) : Option Json :=
  (kwargs.find? (fun p => p.1 == key)).map (fun p => p.2)

/-- Whether every supplied keyword is a declared parameter name; a keyword
outside the list raises TypeError at `tool(**arguments)`. -/
def kwKeysAllowed (kwargs : List (String × Json)) (allowed : List String) : Bool :=
  kwargs.all (fun p => allowed.contains p.1)

/-- Calling one of the three tool functions with the decoded keyword
arguments, with Python `f(**kwargs)` binding semantics: unexpected or
missing required keywords raise TypeError, otherwise the function body
runs (defaults applied for record_user_details). -/
def callToolFn (cfg : PushoverConfig) (net : NetOutcome) (fn : ToolFn)
    (kwargs : List (String × Json)) : Except PyError (PushRec × Json) :=
  match fn with
  | .pushFn =>
    if kwKeysAllowed kwargs ["message"] then
      match kwLookup kwargs "message" with
      | some m => .ok (push cfg net m)
      | none => .error (.typeError "push missing required argument message")
    else .error (.typeError "push got an unexpected keyword argument")
  | .recordUserDetailsFn =>
    if kwKeysAllowed kwargs ["email", "name", "notes"] then
      match kwLookup kwargs "email" with
      | some email =>
        .ok (record_user_details cfg net email
          ((kwLookup kwargs "name").getD (.str "Name not provided"))
          ((kwLookup kwargs "notes").getD (.str "not provided")))
      | none => .error (.typeError "record_user_details missing required argument email")
    else .error (.typeError "record_user_details got an unexpected keyword argument")
  | .recordUnknownQuestionFn =>
    if kwKeysAllowed kwargs ["question"] then
      match kwLookup kwargs "question" with
      | some q => .ok (record_unknown_question cfg net q)
      | none => .error (.typeError "record_unknown_question missing required argument question")
    else .error (.typeError "record_unknown_question got an unexpected keyword argument")

/-- Whether the decoded keyword arguments bind successfully against the
parameter list of the given tool function. -/
def toolBindOk (fn : ToolFn) (kwargs : List (String × Json)) : Bool :=
  match fn with
  | .pushFn => kwKeysAllowed kwargs ["message"] && (kwLookup kwargs "message").isSome
  | .recordUserDetailsFn =>
    kwKeysAllowed kwargs ["email", "name", "notes"] && (kwLookup kwargs "email").isSome
  | .recordUnknownQuestionFn =>
    kwKeysAllowed kwargs ["question"] && (kwLookup kwargs "question").isSome

/-- One iteration of the loop body of `handle_tool_calls` (`app.py` lines
238-258) up to the result value: decode the arguments (line 243, may
raise), look the name up in the module globals (line 250), and either call
the binding (line 256) or fall back to the empty dict (line 258). The
optional PushRec records the notification effect when a tool function ran. -/
def dispatch_one (cfg : PushoverConfig) (net : NetOutcome) (tc : ToolCall) :
    Except PyError (Option PushRec × Json) :=
  match tc.function.arguments with
  | .decodeError => .error .jsonDecodeError
  | .value v =>
    match moduleGlobals cfg tc.function.name with
    | none => .ok (none, .obj [])
    | some .falsyValue => .ok (none, .obj [])
    | some .truthyValue => .error (.typeError "object is not callable")
    | some .callableOther => .error (.unmodelledCall tc.function.name)
    | some (.toolFn fn) =>
      match v with
      | .obj kwargs =>
        match callToolFn cfg net fn kwargs with
        | .ok r => .ok (some r.1, r.2)
        | .error e => .error e
      | _ => .error (.typeError "argument unpacking requires a mapping")

/-- A message of the working conversation sequence: the system prompt, a
user utterance, the assistant message object appended verbatim from a
model response, or a tool-role result message (content, tool_call_id). -/
structure AssistantMsg where
  content : Option String
  tool_calls : List ToolCall
deriving DecidableEq

inductive Msg where
  | system : String → Msg
  | user : String → Msg
  | assistant : AssistantMsg → Msg
  | tool : String → String → Msg
deriving DecidableEq

/-- The tool_call_id carried by a tool-role message (empty for the other
roles, which carry none). -/
def Msg.toolCallId : Msg → String
  | .tool _ i => i
  | _ => ""

/-- Embedding of `handle_tool_calls` (`app.py` lines 219-268), indexing the
network oracle by position so each notification attempt has its own
outcome. A raised exception anywhere in the loop aborts the whole call and
discards the results gathered so far, exactly as a Python exception
unwinds out of the for loop. On success it returns the notification
effects and the tool-role result messages in request order. -/
def handle_tool_calls (cfg : PushoverConfig) (net : Nat → NetOutcome) :
    Nat → List ToolCall → Except PyError (List PushRec × List Msg)
  | _, [] => .ok ([], [])
  | k, tc :: rest =>
    match dispatch_one cfg (net k) tc with
    | .error e => .error e
    | .ok (orec, result) =>
      match handle_tool_calls cfg net (k + 1) rest with
      | .error e => .error e
      | .ok (logs, msgs) =>
        .ok (orec.toList ++ logs, Msg.tool (jsonDumps result) tc.id :: msgs)

/-- One response of the model endpoint oracle: the finish reason of choice
0 and its message object. -/
structure ModelResponse where
  finish_reason : String
  message : AssistantMsg
deriving DecidableEq

/-- How a driver turn ends abnormally: a Python exception from the
dispatcher, or the finite response oracle running out while the source
loop would have called the endpoint again. -/
inductive ChatErr where
  | py : PyError → ChatErr
  | oracleExhausted : ChatErr
deriving DecidableEq

/-- The `while not done` loop of `chat` (`app.py` lines 339-370), driven by
the finite list of endpoint responses. The first component records, in
order, the message sequence passed to each model endpoint call (including
the call the oracle failed to answer, when it runs out); the second is the
returned content or the abnormal end. -/
def chat_go (cfg : PushoverConfig) (net : Nat → NetOutcome) :
    List ModelResponse → List Msg → List (List Msg) × Except ChatErr (Option String)
  | [], messages => ([messages], .error .oracleExhausted)
  | r :: rest, messages =>
    if r.finish_reason = "tool_calls" then
      match handle_tool_calls cfg net 0 r.message.tool_calls with
      | .error e => ([messages], .error (.py e))
      | .ok (_, results) =>
        let next := chat_go cfg net rest (messages ++ [Msg.assistant r.message] ++ results)
        (messages :: next.1, next.2)
    else ([messages], .ok r.message.content)

/-- Embedding of `chat` (`app.py` lines 314-373): build the working message
list as system prompt, then the caller history, then the new user message
(line 334), and run the loop. -/
def chat (cfg : PushoverConfig) (net : Nat → NetOutcome) (oracle : List ModelResponse)
    (sp : String) (message : String) (history : List Msg) :
    List (List Msg) × Except ChatErr (Option String) :=
  chat_go cfg net oracle (Msg.system sp :: (history ++ [Msg.user message]))

end ConnectionsChat

namespace ProfileChatbot

/-- A chat message of `profile-chatbot.py`: plain role plus text content
(this script never uses tool calls). -/
inductive PMsg where
  | system : String → PMsg
  | user : String → PMsg
  | assistant : String → PMsg
deriving DecidableEq

/-- The configured name (`profile-chatbot.py` line 48). -/
def name : String := "Anjani Prakash"

/-- The base system prompt (`profile-chatbot.py` lines 53-61), parameterized
by the summary and LinkedIn text loaded at startup. -/
def system_prompt (summary linkedin : String) : String :=
  "You are acting as " ++ name ++ ". You are answering questions on " ++ name
    ++ "'s website, particularly questions related to " ++ name
    ++ "'s career, background, skills and experience. Your responsibility is to represent "
    ++ name ++ " for interactions on the website as faithfully as possible. You are given a summary of "
    ++ name ++ "'s background and LinkedIn profile which you can use to answer questions. Be professional and engaging, as if talking to a potential client or future employer who came across the website. If you don't know the answer, say so."
    ++ "\n\n## Summary:\n" ++ summary ++ "\n\n## LinkedIn Profile:\n" ++ linkedin ++ "\n\n"
    ++ "With this context, please chat with the user, always staying in character as " ++ name ++ "."

/-- The structured judge verdict (`profile-chatbot.py` lines 67-69). -/
structure Evaluation where
  is_acceptable : Bool
  feedback : String
deriving DecidableEq

/-- The evaluator system prompt (`profile-chatbot.py` lines 74-81). -/
def evaluator_system_prompt (summary linkedin : String) : String :=
  "You are an evaluator that decides whether a response to a question is acceptable. You are provided with a conversation between a User and an Agent. Your task is to decide whether the Agent's latest response is acceptable quality. The Agent is playing the role of "
    ++ name ++ " and is representing " ++ name
    ++ " on their website. The Agent has been instructed to be professional and engaging, as if talking to a potential client or future employer who came across the website. The Agent has been provided with context on "
    ++ name ++ " in the form of their summary and LinkedIn details. Here's the information:"
    ++ "\n\n## Summary:\n" ++ summary ++ "\n\n## LinkedIn Profile:\n" ++ linkedin ++ "\n\n"
    ++ "With this context, please evaluate the latest response, replying with whether the response is acceptable and your feedback."

/-- Python repr of one history entry as the f-string of
`evaluator_user_prompt` renders it; string escaping inside the quotes is
abbreviated (no claim inspects this text). -/
def pmsgRepr : PMsg → String
  | .system c => "\x7b'role': 'system', 'content': '" ++ c ++ "'\x7d"
  | .user c => "\x7b'role': 'user', 'content': '" ++ c ++ "'\x7d"
  | .assistant c => "\x7b'role': 'assistant', 'content': '" ++ c ++ "'\x7d"

/-- Python str() of the history list interpolated by the f-string at
`profile-chatbot.py` line 84. -/
def historyRepr (history : List PMsg) : String :=
  "[" ++ String.intercalate ", " (history.map pmsgRepr) ++ "]"

/-- Embedding of `evaluator_user_prompt` (`profile-chatbot.py` lines 83-88). -/
def evaluator_user_prompt (reply message : String) (history : List PMsg) : String :=
  "Here's the conversation between the User and the Agent: \n\n" ++ historyRepr history ++ "\n\n"
    ++ "Here's the latest message from the User: \n\n" ++ message ++ "\n\n"
    ++ "Here's the latest response from the Agent: \n\n" ++ reply ++ "\n\n"
    ++ "Please evaluate the response, replying with whether it is acceptable and your feedback."

/-- The message list `evaluate` submits to the judge endpoint
(`profile-chatbot.py` line 102). -/
def evaluate_messages (summary linkedin reply message : String) (history : List PMsg) : List PMsg :=
  [PMsg.system (evaluator_system_prompt summary linkedin),
   PMsg.user (evaluator_user_prompt reply message history)]

/-- Embedding of `evaluate` (`profile-chatbot.py` lines 101-104). The judge
oracle stands for the structured-parse call
`gemini.beta.chat.completions.parse`: an error value is the exception that
call raises when the response does not parse into an Evaluation, and it
propagates out of `evaluate` exactly as the Python exception does. -/
def evaluate (judge : List PMsg → Except String Evaluation)
    (summary linkedin reply message : String) (history : List PMsg) : Except String Evaluation :=
  judge (evaluate_messages summary linkedin reply message history)

/-- The augmented system prompt `rerun` builds (`profile-chatbot.py` lines
110-112): the base prompt, the rejection banner, the rejected reply and the
judge feedback, verbatim. -/
def updated_system_prompt (summary linkedin reply feedback : String) : String :=
  system_prompt summary linkedin
    ++ "\n\n## Previous answer rejected\nYou just tried to reply, but the quality control rejected your reply\n"
    ++ "## Your attempted answer:\n" ++ reply ++ "\n\n"
    ++ "## Reason for rejection:\n" ++ feedback ++ "\n\n"

/-- The message list `rerun` submits for regeneration
(`profile-chatbot.py` line 113). -/
def rerun_messages (summary linkedin reply message feedback : String) (history : List PMsg) : List PMsg :=
  PMsg.system (updated_system_prompt summary linkedin reply feedback) :: (history ++ [PMsg.user message])

/-- Embedding of `rerun` (`profile-chatbot.py` lines 109-115): one
completion call against the augmented context, whose text is returned. -/
def rerun (complete : List PMsg → String)
    (summary linkedin reply message feedback : String) (history : List PMsg) : String :=
  complete (rerun_messages summary linkedin reply message feedback history)

/-- The pig-latin instruction appended for patent questions
(`profile-chatbot.py` lines 135-136, with the spacing the Python line
continuation leaves inside the string). -/
def pig_latin_note : String :=
  "\n\nEverything in your reply needs to be in pig latin -               it is mandatory that you respond only and entirely in pig latin"

/-- Python substring containment, the `in` test of
`if "patent" in message` (`profile-chatbot.py` line 134). -/
def pyIn (needle haystack : String) : Bool :=
  decide (needle.toList <:+: haystack.toList)

/-- The system text chosen for the generation call (`profile-chatbot.py`
lines 134-138). -/
def chat_system (summary linkedin message : String) : String :=
  if pyIn "patent" message then system_prompt summary linkedin ++ pig_latin_note
  else system_prompt summary linkedin

/-- The message list of the generation call (`profile-chatbot.py` line 140). -/
def gen_messages (summary linkedin message : String) (history : List PMsg) : List PMsg :=
  PMsg.system (chat_system summary linkedin message) :: (history ++ [PMsg.user message])

instance {ε α : Type} [DecidableEq ε] [DecidableEq α] : DecidableEq (Except ε α) := fun a b =>
  match a, b with
  | .error e, .error f =>
    if h : e = f then isTrue (by rw [h]) else isFalse (by intro hc; cases hc; exact h rfl)
  | .error _, .ok _ => isFalse (by intro hc; cases hc)
  | .ok _, .error _ => isFalse (by intro hc; cases hc)
  | .ok x, .ok y =>
    if h : x = y then isTrue (by rw [h]) else isFalse (by intro hc; cases hc; exact h rfl)

/-- The trace of one gated turn: the message lists passed to each
completion call (generation, then possibly regeneration), the message
lists passed to each judge call, and the returned reply or the propagated
judge-parse exception. -/
structure PTrace where
  genCalls : List (List PMsg)
  judgeCalls : List (List PMsg)
  result : Except String String
deriving DecidableEq

/-- The candidate reply of a turn: the completion endpoint applied to the
generation messages (`profile-chatbot.py` lines 141-142). -/
def gen_reply (complete : List PMsg → String) (summary linkedin message : String)
    (history : List PMsg) : String :=
  complete (gen_messages summary linkedin message history)

/-- Embedding of `chat` (`profile-chatbot.py` lines 120-154): generate a
candidate with the (possibly pig-latin-augmented) system prompt, judge it
once, return it if acceptable, otherwise return one `rerun` regeneration
unconditionally; a judge-parse failure propagates out of the turn. -/
def chat (complete : List PMsg → String) (judge : List PMsg → Except String Evaluation)
    (summary linkedin message : String) (history : List PMsg) : PTrace :=
  match evaluate judge summary linkedin (gen_reply complete summary linkedin message history) message history with
  | .error e =>
    ⟨[gen_messages summary linkedin message history],
     [evaluate_messages summary linkedin (gen_reply complete summary linkedin message history) message history],
     .error e⟩
  | .ok ev =>
    if ev.is_acceptable then
      ⟨[gen_messages summary linkedin message history],
       [evaluate_messages summary linkedin (gen_reply complete summary linkedin message history) message history],
       .ok (gen_reply complete summary linkedin message history)⟩
    else
      ⟨[gen_messages summary linkedin message history,
        rerun_messages summary linkedin (gen_reply complete summary linkedin message history) message ev.feedback history],
       [evaluate_messages summary linkedin (gen_reply complete summary linkedin message history) message history],
       .ok (rerun complete summary linkedin (gen_reply complete summary linkedin message history) message ev.feedback history)⟩

end ProfileChatbot

namespace ConnectionsChat

/-- A concrete environment for witnesses: no Pushover credentials. -/
def cfg0 : PushoverConfig := ⟨none, none⟩

/-- A concrete network oracle for witnesses: every HTTP attempt raises a
RequestException. -/
def net0 : Nat → NetOutcome := fun _ => .requestException "unreachable"

/-- A concrete registered-tool call for witnesses. -/
def tcQ : ToolCall := ⟨"id1", ⟨"record_unknown_question", .value (.obj [("question", .str "why")])⟩⟩

/-- A concrete tool-calls model response for witnesses. -/
def respQ : ModelResponse := ⟨"tool_calls", ⟨none, [tcQ]⟩⟩

/-- A concrete normal-stop model response for witnesses. -/
def respStop : ModelResponse := ⟨"stop", ⟨some "done", []⟩⟩

/-- The notification effects of dispatching `tcQ` under `cfg0`. -/
def wlogsQ : List PushRec :=
  [⟨Json.str "Recording why asked that I couldn't answer", .credsMissing⟩]

/-- The tool-role result messages of dispatching `tcQ`. -/
def wresultsQ : List Msg := [Msg.tool "\x7b\"recorded\": \"ok\"\x7d" "id1"]

end ConnectionsChat

namespace ProfileChatbot

/-- A concrete completion oracle for witnesses: it always answers with the
same text. -/
def completeW : List PMsg → String := fun _ => "candidate reply"

/-- A concrete judge oracle for witnesses: it always rejects with fixed
feedback. -/
def judgeRejW : List PMsg → Except String Evaluation := fun _ => .ok ⟨false, "too informal"⟩

/-- A concrete judge oracle for witnesses: the structured parse always
fails. -/
def judgeErrW : List PMsg → Except String Evaluation := fun _ => .error "parse failure"

end ProfileChatbot

namespace ConnectionsChat

theorem handle_tool_calls_ok_shape (cfg : PushoverConfig) (net : Nat → NetOutcome) :
    ∀ (tcs : List ToolCall) (k : Nat) (logs : List PushRec) (results : List Msg),
      handle_tool_calls cfg net k tcs = .ok (logs, results) →
      results.length = tcs.length ∧
      ∀ i (hi : i < results.length) (hi2 : i < tcs.length),
        ∃ content, results.get ⟨i, hi⟩ = Msg.tool content (tcs.get ⟨i, hi2⟩).id := by
  intro tcs
  induction tcs with
  | nil =>
    intro k logs results h
    simp only [handle_tool_calls, Except.ok.injEq, Prod.mk.injEq] at h
    obtain ⟨rfl, rfl⟩ := h
    exact ⟨rfl, fun i hi hi2 => absurd hi2 (by simp)⟩
  | cons tc rest ih =>
    intro k logs results h
    simp only [handle_tool_calls] at h
    cases hd : dispatch_one cfg (net k) tc with
    | error e => rw [hd] at h; cases h
    | ok pr =>
      obtain ⟨orec, result⟩ := pr
      rw [hd] at h
      cases hrest : handle_tool_calls cfg net (k + 1) rest with
      | error e => rw [hrest] at h; cases h
      | ok lr =>
        obtain ⟨logs2, msgs2⟩ := lr
        rw [hrest] at h
        simp only [Except.ok.injEq, Prod.mk.injEq] at h
        obtain ⟨rfl, rfl⟩ := h
        obtain ⟨hlen, hids⟩ := ih (k + 1) logs2 msgs2 hrest
        refine ⟨by simp [hlen], ?_⟩
        intro i hi hi2
        cases i with
        | zero => exact ⟨jsonDumps result, rfl⟩
        | succ j => exact hids j (by simpa using hi) (by simpa using hi2)

theorem chat_go_calls_head (cfg : PushoverConfig) (net : Nat → NetOutcome)
    (oracle : List ModelResponse) (messages : List Msg) :
    (chat_go cfg net oracle messages).1.head? = some messages := by
  cases oracle with
  | nil => rfl
  | cons r rest =>
    simp only [chat_go]
    by_cases h : r.finish_reason = "tool_calls"
    · rw [if_pos h]
      cases hh : handle_tool_calls cfg net 0 r.message.tool_calls with
      | error e => rfl
      | ok p => obtain ⟨a, b⟩ := p; rfl
    · rw [if_neg h]; rfl

theorem chat_go_calls_chain (cfg : PushoverConfig) (net : Nat → NetOutcome) :
    ∀ (oracle : List ModelResponse) (messages : List Msg),
      List.Chain' (fun a b => a <+: b) (chat_go cfg net oracle messages).1 := by
  intro oracle
  induction oracle with
  | nil => intro messages; exact List.chain'_singleton messages
  | cons r rest ih =>
    intro messages
    simp only [chat_go]
    by_cases h : r.finish_reason = "tool_calls"
    · rw [if_pos h]
      cases hh : handle_tool_calls cfg net 0 r.message.tool_calls with
      | error e => exact List.chain'_singleton messages
      | ok p =>
        obtain ⟨a, results⟩ := p
        refine List.Chain'.cons' (ih _) ?_
        intro y hy
        rw [chat_go_calls_head] at hy
        simp only [Option.mem_def, Option.some.injEq] at hy
        subst hy
        exact ⟨[Msg.assistant r.message] ++ results, by simp⟩
    · rw [if_neg h]
      exact List.chain'_singleton messages

/-- Claim C1: in a driver round whose model response has finish reason
"tool_calls" and whose dispatch succeeds, exactly one tool-role result
message is produced per ToolCallRequest, in request order, each carrying
the tool_call_id of the request it answers, and the next model call
receives exactly the previous message sequence extended by the assistant
message and those results — so all of them are appended before the next
model call. -/
theorem c1_tool_round_appends_matching_results
    (cfg : PushoverConfig) (net : Nat → NetOutcome) (r : ModelResponse)
    (rest : List ModelResponse) (sp message : String) (history : List Msg)
    (logs : List PushRec) (results : List Msg)
    (hfr : r.finish_reason = "tool_calls")
    (hok : handle_tool_calls cfg net 0 r.message.tool_calls = .ok (logs, results)) :
    results.length = r.message.tool_calls.length ∧
    (∀ i (hi : i < results.length) (hi2 : i < r.message.tool_calls.length),
      ∃ content, results.get ⟨i, hi⟩ = Msg.tool content ((r.message.tool_calls.get ⟨i, hi2⟩).id)) ∧
    (chat cfg net (r :: rest) sp message history).1 =
      (Msg.system sp :: (history ++ [Msg.user message])) ::
        (chat_go cfg net rest ((Msg.system sp :: (history ++ [Msg.user message]))
          ++ [Msg.assistant r.message] ++ results)).1 ∧
    (chat_go cfg net rest ((Msg.system sp :: (history ++ [Msg.user message]))
      ++ [Msg.assistant r.message] ++ results)).1.head? =
      some ((Msg.system sp :: (history ++ [Msg.user message]))
        ++ [Msg.assistant r.message] ++ results) := by
  obtain ⟨hlen, hids⟩ := handle_tool_calls_ok_shape cfg net r.message.tool_calls 0 logs results hok
  refine ⟨hlen, hids, ?_, chat_go_calls_head ..⟩
  simp [chat, chat_go, hfr, hok]

theorem c1_tool_round_appends_matching_results_witness :
    respQ.finish_reason = "tool_calls" ∧
    handle_tool_calls cfg0 net0 0 respQ.message.tool_calls = .ok (wlogsQ, wresultsQ) ∧
    wresultsQ.length = respQ.message.tool_calls.length ∧
    (chat cfg0 net0 [respQ, respStop] "sys" "hi" []).1 =
      (Msg.system "sys" :: (([] : List Msg) ++ [Msg.user "hi"])) ::
        (chat_go cfg0 net0 [respStop] ((Msg.system "sys" :: (([] : List Msg) ++ [Msg.user "hi"]))
          ++ [Msg.assistant respQ.message] ++ wresultsQ)).1 := by
  refine ⟨by decide, by decide, ?_, ?_⟩
  · exact (c1_tool_round_appends_matching_results cfg0 net0 respQ [respStop] "sys" "hi" []
      wlogsQ wresultsQ (by decide) (by decide)).1
  · exact (c1_tool_round_appends_matching_results cfg0 net0 respQ [respStop] "sys" "hi" []
      wlogsQ wresultsQ (by decide) (by decide)).2.2.1

/-- Claim C4: when the first model response has a finish reason other than
"tool_calls", the driver makes exactly one model endpoint call and returns
that response's content verbatim. -/
theorem c4_no_tool_calls_single_model_call
    (cfg : PushoverConfig) (net : Nat → NetOutcome) (r : ModelResponse)
    (rest : List ModelResponse) (sp message : String) (history : List Msg)
    (hfr : r.finish_reason ≠ "tool_calls") :
    (chat cfg net (r :: rest) sp message history).1.length = 1 ∧
    (chat cfg net (r :: rest) sp message history).2 = .ok r.message.content := by
  constructor <;> simp [chat, chat_go, hfr]

theorem c4_no_tool_calls_single_model_call_witness :
    respStop.finish_reason ≠ "tool_calls" ∧
    (chat cfg0 net0 [respStop] "sys" "hi" []).1.length = 1 ∧
    (chat cfg0 net0 [respStop] "sys" "hi" []).2 = .ok (some "done") :=
  ⟨by decide, (c4_no_tool_calls_single_model_call cfg0 net0 respStop [] "sys" "hi" [] (by decide))⟩

/-- Claim C9: both registered tool handlers return the constant payload
recorded ok on every invocation, for every credential configuration and
every network outcome (delivery confirmed, delivery rejected, exception,
or missing credentials), so the ToolResult seen by the model never
reflects notification failure. -/
theorem c9_recorders_constant_payload
    (cfg : PushoverConfig) (net : NetOutcome) (email nm notes question : Json) :
    (record_user_details cfg net email nm notes).2 = Json.obj [("recorded", Json.str "ok")] ∧
    (record_unknown_question cfg net question).2 = Json.obj [("recorded", Json.str "ok")] :=
  ⟨rfl, rfl⟩

/-- Claim C8: dispatch resolves against the whole module global namespace,
not a closed two-entry registry: the name push is not among the two
advertised tools, yet `handle_tool_calls` invokes the module function
`push` with the model-supplied arguments (the notification effect records
the model's message) instead of substituting the empty result. -/
theorem c8_push_reachable_via_globals :
    ¬ ("push" ∈ List.map ToolSchema.name tools) ∧
    moduleGlobals cfg0 "push" = some (.toolFn .pushFn) ∧
    handle_tool_calls cfg0 net0 0
        [⟨"call_g", ⟨"push", .value (.obj [("message", .str "hello from the model")])⟩⟩] =
      .ok ([⟨Json.str "hello from the model", .credsMissing⟩], [Msg.tool "null" "call_g"]) := by
  decide

end ConnectionsChat

namespace ConnectionsChat

/-- Claim C3 counterexample: a ToolCallRequest named push is absent from
the two advertised capabilities, yet the driver does not substitute the
empty-result content for it — it invokes the module function `push`
(returning Python None, serialized "null"), because dispatch resolves
against the module globals. -/
theorem c3_counterexample_push_not_substituted :
    ¬ ("push" ∈ List.map ToolSchema.name tools) ∧
    handle_tool_calls cfg0 net0 0 [⟨"call_p", ⟨"push", .value (.obj [("message", .str "hi")])⟩⟩] =
      .ok ([⟨Json.str "hi", .credsMissing⟩], [Msg.tool "null" "call_p"]) ∧
    "null" ≠ "\x7b\x7d" := by
  decide

/-- Claim C3 amended: for a ToolCallRequest whose arguments decode and
whose name is absent from the module global namespace (not merely from the
two advertised tools), the driver substitutes the empty-result ToolResult
with content "\x7b\x7d" and the round continues with the remaining
requests. -/
theorem c3_amended_absent_global_empty_result
    (cfg : PushoverConfig) (net : Nat → NetOutcome) (k : Nat) (tc : ToolCall)
    (rest : List ToolCall) (v : Json)
    (hargs : tc.function.arguments = .value v)
    (habsent : moduleGlobals cfg tc.function.name = none) :
    dispatch_one cfg (net k) tc = .ok (none, Json.obj []) ∧
    jsonDumps (Json.obj []) = "\x7b\x7d" ∧
    handle_tool_calls cfg net k (tc :: rest) =
      (handle_tool_calls cfg net (k + 1) rest).map
        (fun p => (p.1, Msg.tool "\x7b\x7d" tc.id :: p.2)) := by
  have hone : dispatch_one cfg (net k) tc = .ok (none, Json.obj []) := by
    unfold dispatch_one
    rw [hargs, habsent]
  refine ⟨hone, rfl, ?_⟩
  cases hrest : handle_tool_calls cfg net (k + 1) rest with
  | error e => simp [handle_tool_calls, hone, hrest, Except.map]
  | ok p => simp [handle_tool_calls, hone, hrest, Except.map, jsonDumps, jsonDumpsFields]

theorem c3_amended_absent_global_empty_result_witness :
    (⟨"call_u", ⟨"frobnicate", .value (.obj [])⟩⟩ : ToolCall).function.arguments =
      .value (.obj []) ∧
    moduleGlobals cfg0 "frobnicate" = none ∧
    handle_tool_calls cfg0 net0 0 [⟨"call_u", ⟨"frobnicate", .value (.obj [])⟩⟩] =
      (handle_tool_calls cfg0 net0 1 []).map
        (fun p => (p.1, Msg.tool "\x7b\x7d" "call_u" :: p.2)) :=
  ⟨rfl, by decide,
   (c3_amended_absent_global_empty_result cfg0 net0 0
     ⟨"call_u", ⟨"frobnicate", .value (.obj [])⟩⟩ [] (.obj []) rfl (by decide)).2.2⟩

/-- Claim C6 counterexample: an exception raised while decoding a
request's arguments does propagate past the dispatch boundary — a tool
call whose argument string fails json.loads makes `handle_tool_calls`
raise and aborts the whole conversation turn instead of being converted
into a failure payload. -/
theorem c6_counterexample_decode_failure_escapes :
    handle_tool_calls cfg0 net0 0 [⟨"call_b", ⟨"record_user_details", .decodeError⟩⟩] =
      .error .jsonDecodeError ∧
    (chat cfg0 net0 [⟨"tool_calls", ⟨none, [⟨"call_b", ⟨"record_user_details", .decodeError⟩⟩]⟩⟩]
        "sys" "hi" []).2 = .error (.py .jsonDecodeError) := by
  decide

/-- Claim C6 amended: the registered tool functions themselves never raise
once their keyword arguments bind — `push` catches every network failure
internally — so a handler-internal failure never propagates; but it is
converted into the fixed success payload, not a failure payload, and
argument-decoding failures are not caught at all (see the
counterexample). -/
theorem c6_amended_bound_handlers_never_raise
    (cfg : PushoverConfig) (net : NetOutcome) (fn : ToolFn)
    (kwargs : List (String × Json))
    (hbind : toolBindOk fn kwargs = true) :
    ∃ r, callToolFn cfg net fn kwargs = .ok r := by
  cases fn with
  | pushFn =>
    rw [toolBindOk, Bool.and_eq_true] at hbind
    obtain ⟨h1, h2⟩ := hbind
    obtain ⟨m, hm⟩ := Option.isSome_iff_exists.mp h2
    exact ⟨push cfg net m, by simp [callToolFn, h1, hm]⟩
  | recordUserDetailsFn =>
    rw [toolBindOk, Bool.and_eq_true] at hbind
    obtain ⟨h1, h2⟩ := hbind
    obtain ⟨m, hm⟩ := Option.isSome_iff_exists.mp h2
    exact ⟨record_user_details cfg net m ((kwLookup kwargs "name").getD (.str "Name not provided"))
      ((kwLookup kwargs "notes").getD (.str "not provided")), by simp [callToolFn, h1, hm]⟩
  | recordUnknownQuestionFn =>
    rw [toolBindOk, Bool.and_eq_true] at hbind
    obtain ⟨h1, h2⟩ := hbind
    obtain ⟨m, hm⟩ := Option.isSome_iff_exists.mp h2
    exact ⟨record_unknown_question cfg net m, by simp [callToolFn, h1, hm]⟩

theorem c6_amended_bound_handlers_never_raise_witness :
    toolBindOk .recordUnknownQuestionFn [("question", .str "why")] = true ∧
    ∃ r, callToolFn cfg0 (net0 0) .recordUnknownQuestionFn [("question", .str "why")] = .ok r :=
  ⟨by decide,
   c6_amended_bound_handlers_never_raise cfg0 (net0 0) .recordUnknownQuestionFn
     [("question", .str "why")] (by decide)⟩

/-- Claim C7: the driver never mutates earlier messages — the first model
call receives exactly the system prompt, the caller's history unchanged,
and the new user message, and across the loop the sequence passed to each
successive model call extends the sequence passed to the previous one
(append-only: each is a prefix of the next). -/
theorem c7_history_prefix_chain
    (cfg : PushoverConfig) (net : Nat → NetOutcome) (oracle : List ModelResponse)
    (sp message : String) (history : List Msg) :
    (chat cfg net oracle sp message history).1.head? =
      some (Msg.system sp :: (history ++ [Msg.user message])) ∧
    List.Chain' (fun a b => a <+: b) (chat cfg net oracle sp message history).1 :=
  ⟨chat_go_calls_head .., chat_go_calls_chain ..⟩

end ConnectionsChat

namespace ProfileChatbot

theorem toList_append_eq (s t : String) : (s ++ t).toList = s.toList ++ t.toList :=
  String.data_append s t

theorem str_between (x y z : String) : y.toList <:+: (x ++ y ++ z).toList :=
  ⟨x.toList, z.toList, by simp [toList_append_eq]⟩

theorem reply_in_updated (s l reply fb : String) :
    reply.toList <:+: (updated_system_prompt s l reply fb).toList := by
  have h : updated_system_prompt s l reply fb =
      (system_prompt s l
        ++ "\n\n## Previous answer rejected\nYou just tried to reply, but the quality control rejected your reply\n"
        ++ "## Your attempted answer:\n")
      ++ reply ++ ("\n\n" ++ "## Reason for rejection:\n" ++ fb ++ "\n\n") := by
    simp [updated_system_prompt, String.append_assoc]
  rw [h]
  exact str_between ..

theorem fb_in_updated (s l reply fb : String) :
    fb.toList <:+: (updated_system_prompt s l reply fb).toList := by
  have h : updated_system_prompt s l reply fb =
      (system_prompt s l
        ++ "\n\n## Previous answer rejected\nYou just tried to reply, but the quality control rejected your reply\n"
        ++ "## Your attempted answer:\n" ++ reply ++ "\n\n" ++ "## Reason for rejection:\n")
      ++ fb ++ "\n\n" := by
    simp [updated_system_prompt, String.append_assoc]
  rw [h]
  exact str_between ..

/-- Claim C2: once the judge returns a structured Evaluation, the gate
either returns the candidate unchanged with no further completion call
(is_acceptable true), or makes exactly one regeneration call — whose
system context contains the rejected reply and the rejection feedback
verbatim — and returns its text unconditionally, with no second judge
call (the judge-call trace stays a single call in both branches). -/
theorem c2_gate_accept_or_single_regeneration
    (complete : List PMsg → String) (judge : List PMsg → Except String Evaluation)
    (summary linkedin message : String) (history : List PMsg) (ev : Evaluation)
    (hjudge : judge (evaluate_messages summary linkedin
        (gen_reply complete summary linkedin message history) message history) = .ok ev) :
    (ev.is_acceptable = true →
      chat complete judge summary linkedin message history =
        ⟨[gen_messages summary linkedin message history],
         [evaluate_messages summary linkedin (gen_reply complete summary linkedin message history)
            message history],
         .ok (gen_reply complete summary linkedin message history)⟩) ∧
    (ev.is_acceptable = false →
      chat complete judge summary linkedin message history =
        ⟨[gen_messages summary linkedin message history,
          rerun_messages summary linkedin (gen_reply complete summary linkedin message history)
            message ev.feedback history],
         [evaluate_messages summary linkedin (gen_reply complete summary linkedin message history)
            message history],
         .ok (rerun complete summary linkedin (gen_reply complete summary linkedin message history)
            message ev.feedback history)⟩ ∧
      (gen_reply complete summary linkedin message history).toList <:+:
        (updated_system_prompt summary linkedin
          (gen_reply complete summary linkedin message history) ev.feedback).toList ∧
      ev.feedback.toList <:+:
        (updated_system_prompt summary linkedin
          (gen_reply complete summary linkedin message history) ev.feedback).toList) := by
  constructor
  · intro hacc
    simp [chat, evaluate, hjudge, hacc]
  · intro hacc
    exact ⟨by simp [chat, evaluate, hjudge, hacc], reply_in_updated .., fb_in_updated ..⟩

theorem c2_gate_accept_or_single_regeneration_witness :
    judgeRejW (evaluate_messages "S" "L" (gen_reply completeW "S" "L" "hello" []) "hello" []) =
      .ok ⟨false, "too informal"⟩ ∧
    chat completeW judgeRejW "S" "L" "hello" [] =
      ⟨[gen_messages "S" "L" "hello" [],
        rerun_messages "S" "L" (gen_reply completeW "S" "L" "hello" []) "hello" "too informal" []],
       [evaluate_messages "S" "L" (gen_reply completeW "S" "L" "hello" []) "hello" []],
       .ok (rerun completeW "S" "L" (gen_reply completeW "S" "L" "hello" []) "hello" "too informal" [])⟩ ∧
    ("too informal").toList <:+:
      (updated_system_prompt "S" "L" (gen_reply completeW "S" "L" "hello" []) "too informal").toList := by
  have h := c2_gate_accept_or_single_regeneration completeW judgeRejW "S" "L" "hello" []
    ⟨false, "too informal"⟩ rfl
  exact ⟨rfl, (h.2 rfl).1, (h.2 rfl).2.2⟩

/-- Claim C5: when the judge call fails to parse into a structured
Evaluation, the gate surfaces that failure as a distinct error — the turn
result is the propagated judge error, the candidate is not returned, and
no regeneration call is made (one completion call and one judge call in
the trace). -/
theorem c5_judge_parse_failure_is_distinct_error
    (complete : List PMsg → String) (judge : List PMsg → Except String Evaluation)
    (summary linkedin message : String) (history : List PMsg) (e : String)
    (hjudge : judge (evaluate_messages summary linkedin
        (gen_reply complete summary linkedin message history) message history) = .error e) :
    chat complete judge summary linkedin message history =
      ⟨[gen_messages summary linkedin message history],
       [evaluate_messages summary linkedin (gen_reply complete summary linkedin message history)
          message history],
       .error e⟩ := by
  simp [chat, evaluate, hjudge]

theorem c5_judge_parse_failure_is_distinct_error_witness :
    judgeErrW (evaluate_messages "S" "L" (gen_reply completeW "S" "L" "hello" []) "hello" []) =
      .error "parse failure" ∧
    chat completeW judgeErrW "S" "L" "hello" [] =
      ⟨[gen_messages "S" "L" "hello" []],
       [evaluate_messages "S" "L" (gen_reply completeW "S" "L" "hello" []) "hello" []],
       .error "parse failure"⟩ :=
  ⟨rfl, c5_judge_parse_failure_is_distinct_error completeW judgeErrW "S" "L" "hello" []
    "parse failure" rfl⟩

/-- Claim C10: the generation request's system message is the base system
prompt with the mandatory pig-latin instruction appended exactly when the
user message contains the substring patent, and the base prompt exactly
otherwise — the choice depends only on this substring test. -/
theorem c10_patent_selects_pig_latin_context
    (complete : List PMsg → String) (judge : List PMsg → Except String Evaluation)
    (summary linkedin message : String) (history : List PMsg) :
    (chat complete judge summary linkedin message history).genCalls.head? =
      some (PMsg.system (chat_system summary linkedin message) :: (history ++ [PMsg.user message])) ∧
    (chat_system summary linkedin message = system_prompt summary linkedin ++ pig_latin_note ↔
      pyIn "patent" message = true) ∧
    (chat_system summary linkedin message = system_prompt summary linkedin ↔
      pyIn "patent" message = false) := by
  have hnote : 0 < pig_latin_note.length := by decide
  refine ⟨?_, ?_, ?_⟩
  · cases hj : evaluate judge summary linkedin (gen_reply complete summary linkedin message history)
        message history with
    | error e => simp [chat, hj, gen_messages]
    | ok ev => cases hacc : ev.is_acceptable <;> simp [chat, hj, hacc, gen_messages]
  · cases hp : pyIn "patent" message <;> simp [chat_system, hp]
    intro hcontra
    have hlen := congrArg String.length hcontra
    rw [String.length_append] at hlen
    omega
  · cases hp : pyIn "patent" message <;> simp [chat_system, hp]
    intro hcontra
    have hlen := congrArg String.length hcontra
    rw [String.length_append] at hlen
    omega

end ProfileChatbot
